import Mathlib

/-!
Verification of `plotly/api/v1/utils.py`: the low-level HTTP transport helper
of the v1 API (header assembly, request dispatch, response validation).

The Python module is shallowly embedded below.  Python `bytes` values are
`List Nat` (each element a byte), parsed JSON documents are the inductive
`JValue`, Python dicts are ordered association lists (`List (String × _)`),
exceptions become `Except`, and the HTTP transport (`requests.request`) is an
explicit function parameter.  `request` additionally records the list of
transport invocations it performs, so that "no network call is made" is a
statable property.
-/

set_option maxRecDepth 10000

namespace PlotlyV1

/-- A parsed JSON value, the possible result of `response.json()`.
Numbers are modelled as integers. -/
inductive JValue where
  | null
  | bool (b : Bool)
  | num (n : Int)
  | str (s : String)
  | arr (elems : List JValue)
  | obj (fields : List (String × JValue))

/-- Python truthiness of a parsed JSON value (`if error:` in the source):
`None`, `False`, `0`, `""`, `[]` and `{}` are falsy, everything else truthy. -/
def truthy : JValue → Bool
  | .null => false
  | .bool b => b
  | .num n => n != 0
  | .str s => !(s == "")
  | .arr elems => !elems.isEmpty
  | .obj fields => !fields.isEmpty

/-- A dynamically-typed Python value as it appears in error fields and header
values: either a `bytes` object, a `str`, or a parsed JSON value. -/
inductive PyVal where
  | bytes (b : List Nat)
  | str (s : String)
  | json (j : JValue)

/-- A completed `requests.Response` as seen by this module: the transport
collaborator exposes `ok`, `status_code`, raw `content`, and a best-effort
JSON parse (`json = none` models `response.json()` raising `ValueError`). -/
structure Response where
  ok : Bool
  status_code : Int
  content : List Nat
  json : Option JValue

/-- `exceptions.PlotlyRequestError(message, status_code, content)`. -/
structure PlotlyRequestError where
  message : PyVal
  status_code : Option Int
  content : PyVal

/-- The exceptions this module can raise: `KeyError` from dict indexing,
`PlotlyError` (the usage error), and `PlotlyRequestError`. -/
inductive PyErr where
  | keyError (key : String)
  | plotlyError (message : String)
  | plotlyRequestError (e : PlotlyRequestError)

/-- The UTF-8 bytes of a string (`six.b` on str input). -/
def strBytes (s : String) : List Nat :=
  s.toUTF8.data.toList.map (fun u => u.toNat)

/-- The base64 alphabet as ASCII codes: `A`-`Z`, `a`-`z`, `0`-`9`, `+`, `/`. -/
def b64Alphabet : List Nat :=
  (List.range 26).map (· + 65) ++ (List.range 26).map (· + 97) ++
    (List.range 10).map (· + 48) ++ [43, 47]

/-- The ASCII code of the base64 digit with value `n`. -/
def b64Char (n : Nat) : Nat := b64Alphabet.getD n 0

/-- The value of the base64 digit with ASCII code `c`. -/
def b64Index (c : Nat) : Nat := b64Alphabet.indexOf c

/-- `base64.b64encode`: standard base64 with `=` (ASCII 61) padding. -/
def base64Encode : List Nat → List Nat
  | [] => []
  | [a] => [b64Char (a / 4), b64Char (a % 4 * 16), 61, 61]
  | [a, b] => [b64Char (a / 4), b64Char (a % 4 * 16 + b / 16), b64Char (b % 16 * 4), 61]
  | a :: b :: c :: rest =>
      b64Char (a / 4) :: b64Char (a % 4 * 16 + b / 16) ::
        b64Char (b % 16 * 4 + c / 64) :: b64Char (c % 64) :: base64Encode rest

/-- Inverse of `base64Encode`, used to state that `base64Encode` really is a
base64 encoding (it recovers the input bytes). -/
def base64Decode : List Nat → List Nat
  | c1 :: c2 :: c3 :: c4 :: rest =>
      if c3 = 61 then
        [b64Index c1 * 4 + b64Index c2 / 16]
      else if c4 = 61 then
        [b64Index c1 * 4 + b64Index c2 / 16, b64Index c2 % 16 * 16 + b64Index c3 / 4]
      else
        (b64Index c1 * 4 + b64Index c2 / 16) ::
          (b64Index c2 % 16 * 16 + b64Index c3 / 4) ::
          (b64Index c3 % 4 * 64 + b64Index c4) :: base64Decode rest
  | _ => []

/-- `basic_auth(username, password)`:
`six.b('Basic ') + base64.b64encode(six.b('{}:{}'.format(username, password)))`. -/
def basic_auth (username password : String) : List Nat :=
  let auth := username ++ ":" ++ password
  let encoded_auth := base64Encode (strBytes auth)
  strBytes "Basic " ++ encoded_auth

/-- Python dict assignment `d[k] = v`: update in place, preserving insertion
order, appending at the end when the key is new. -/
def dictSet {α : Type} : List (String × α) → String → α → List (String × α)
  | [], k, v => [(k, v)]
  | p :: t, k, v => if p.1 == k then (k, v) :: t else p :: dictSet t k v

/-- `dict(d1, **d2)`: a copy of `d1` updated with every entry of `d2`
(entries of `d2` overwrite same-named entries of `d1`). -/
def dictMerge {α : Type} (d1 d2 : List (String × α)) : List (String × α) :=
  d2.foldl (fun acc p => dictSet acc p.1 p.2) d1

/-- Python dict indexing `d[k]`, raising `KeyError` when the key is absent. -/
def dictGetItem {α : Type} (d : List (String × α)) (k : String) : Except PyErr α :=
  match List.lookup k d with
  | some v => .ok v
  | none => .error (.keyError k)

/-- The credentials mapping returned by `config.get_credentials()`. -/
def Credentials : Type := List (String × String)

/-- The configuration mapping returned by `config.get_config()`, restricted
to the one flag this module reads. -/
structure Config where
  plotly_proxy_authorization : Bool

/-- `get_headers()`: start from `{'content-type': 'application/json'}`, fetch
the proxy credentials (dict indexing, so a missing key raises `KeyError` even
when the flag is false), compute their basic-auth encoding, and attach it
under `authorization` only when `plotly_proxy_authorization` is set. -/
def get_headers (creds : Credentials) (cfg : Config) :
    Except PyErr (List (String × PyVal)) :=
  let headers := [("content-type", PyVal.str "application/json")]
  match dictGetItem creds "proxy_username" with
  | .error e => .error e
  | .ok proxy_username =>
    match dictGetItem creds "proxy_password" with
    | .error e => .error e
    | .ok proxy_password =>
      let proxy_auth := basic_auth proxy_username proxy_password
      if cfg.plotly_proxy_authorization then
        .ok (dictSet headers "authorization" (PyVal.bytes proxy_auth))
      else
        .ok headers

/-- `validate_response(response)`: return on `response.ok`; otherwise raise a
`PlotlyRequestError` built from the body.  `response.json()` raising
`ValueError` is the `json = none` branch; otherwise the message is the truthy
`error` field of a dict body, falling back to the raw content, or the literal
string `No Content` when the content is empty. -/
def validate_response (response : Response) : Except PlotlyRequestError Unit :=
  if response.ok then .ok () else
  let content := response.content
  let status_code := response.status_code
  match response.json with
  | none =>
      let message : PyVal :=
        if content.isEmpty then .str "No Content" else .bytes content
      .error ⟨message, some status_code, .bytes content⟩
  | some parsed_content =>
      let error : Option JValue :=
        match parsed_content with
        | .obj fields =>
            match List.lookup "error" fields with
            | some e => if truthy e then some e else none
            | none => none
        | _ => none
      let message : PyVal :=
        match error with
        | some e => .json e
        | none => if content.isEmpty then .str "No Content" else .bytes content
      .error ⟨message, some status_code, .bytes content⟩

/-- The keyword arguments of `request`: the `json` entry, the `headers` entry,
and all remaining entries (opaque pass-through values). -/
structure Kwargs where
  json : Option JValue
  headers : List (String × PyVal)
  other : List (String × PyVal)

/-- A `requests.exceptions.RequestException`: `message` and `response` model
`getattr(e, 'message', ...)` / `getattr(e, 'response', None)`, so `none`
means the attribute is absent. -/
structure RequestException where
  message : Option PyVal
  response : Option Response

/-- The outcome of one call into the transport collaborator
(`requests.request`): a completed response, or a raised `RequestException`. -/
inductive TransportResult where
  | success (r : Response)
  | failure (e : RequestException)

/-- A transport collaborator: what `requests.request(method, url, **kwargs)`
does for each invocation. -/
def Transport : Type := String → String → Kwargs → TransportResult

/-- The result of `request`, together with the list of transport invocations
performed (each recorded as method, url and the kwargs actually passed). -/
structure DispatchResult where
  result : Except PyErr Response
  calls : List (String × String × Kwargs)

/-- `request(method, url, **kwargs)`: reject a non-`None` `json` entry with a
usage error, merge the assembled headers over the caller's
(`dict(kwargs.get('headers', {}), **get_headers())`), invoke the transport,
translate a `RequestException` into a `PlotlyRequestError` — note that
`response.status_code if response else None` uses the truthiness of a
`requests.Response`, which is `response.ok`, not mere presence — and finally
gate the completed response through `validate_response`. -/
def request (creds : Credentials) (cfg : Config) (transport : Transport)
    (method url : String) (kwargs : Kwargs) : DispatchResult :=
  if kwargs.json.isSome then
    ⟨.error (.plotlyError "V1 API does not handle arbitrary json."), []⟩
  else
    match get_headers creds cfg with
    | .error e => ⟨.error e, []⟩
    | .ok assembled =>
      let kwargs := { kwargs with headers := dictMerge kwargs.headers assembled }
      match transport method url kwargs with
      | .failure e =>
          let message := e.message.getD (PyVal.str "No message")
          let status_code : Option Int :=
            match e.response with
            | some r => if r.ok then some r.status_code else none
            | none => none
          let content : PyVal :=
            match e.response with
            | some r => if r.ok then PyVal.bytes r.content else PyVal.str "No content"
            | none => PyVal.str "No content"
          ⟨.error (.plotlyRequestError ⟨message, status_code, content⟩),
            [(method, url, kwargs)]⟩
      | .success response =>
          match validate_response response with
          | .error e => ⟨.error (.plotlyRequestError e), [(method, url, kwargs)]⟩
          | .ok _ => ⟨.ok response, [(method, url, kwargs)]⟩

/-- `some (.obj fields)` with a truthy `error` entry: the condition under
which `validate_response` prefers the parsed `error` field as message. -/
def hasTruthyError : Option JValue → Bool
  | some (.obj fields) =>
      match List.lookup "error" fields with
      | some e => truthy e
      | none => false
  | _ => false

/-! ### Helper lemmas: base64 -/

theorem b64Index_b64Char : ∀ n < 64, b64Index (b64Char n) = n := by decide

theorem b64Char_ne_pad : ∀ n < 64, b64Char n ≠ 61 := by decide

theorem strBytes_lt (s : String) : ∀ x ∈ strBytes s, x < 256 := by
  intro x hx
  simp only [strBytes, List.mem_map] at hx
  obtain ⟨u, _, rfl⟩ := hx
  exact u.val.isLt

theorem base64Decode_pad1 (c1 c2 c4 : Nat) (rest : List Nat) :
    base64Decode (c1 :: c2 :: 61 :: c4 :: rest) =
      [b64Index c1 * 4 + b64Index c2 / 16] := by
  simp [base64Decode]

theorem base64Decode_pad2 (c1 c2 c3 : Nat) (rest : List Nat) (h3 : c3 ≠ 61) :
    base64Decode (c1 :: c2 :: c3 :: 61 :: rest) =
      [b64Index c1 * 4 + b64Index c2 / 16,
       b64Index c2 % 16 * 16 + b64Index c3 / 4] := by
  simp [base64Decode, h3]

theorem base64Decode_cons4 (c1 c2 c3 c4 : Nat) (rest : List Nat)
    (h3 : c3 ≠ 61) (h4 : c4 ≠ 61) :
    base64Decode (c1 :: c2 :: c3 :: c4 :: rest) =
      (b64Index c1 * 4 + b64Index c2 / 16) ::
        (b64Index c2 % 16 * 16 + b64Index c3 / 4) ::
        (b64Index c3 % 4 * 64 + b64Index c4) :: base64Decode rest := by
  simp [base64Decode, h3, h4]

/-- `base64Decode` recovers the bytes encoded by `base64Encode`. -/
theorem base64Decode_base64Encode :
    ∀ bs : List Nat, (∀ x ∈ bs, x < 256) → base64Decode (base64Encode bs) = bs
  | [] => fun _ => rfl
  | [a] => fun h => by
      have ha : a < 256 := h a (by simp)
      show base64Decode [b64Char (a / 4), b64Char (a % 4 * 16), 61, 61] = [a]
      rw [base64Decode_pad1]
      rw [b64Index_b64Char _ (by omega), b64Index_b64Char _ (by omega)]
      simp only [List.cons.injEq, and_true]
      omega
  | [a, b] => fun h => by
      have ha : a < 256 := h a (by simp)
      have hb : b < 256 := h b (by simp)
      show base64Decode [b64Char (a / 4), b64Char (a % 4 * 16 + b / 16),
        b64Char (b % 16 * 4), 61] = [a, b]
      rw [base64Decode_pad2 _ _ _ _ (b64Char_ne_pad _ (by omega))]
      rw [b64Index_b64Char _ (by omega), b64Index_b64Char _ (by omega),
        b64Index_b64Char _ (by omega)]
      simp only [List.cons.injEq, and_true]
      omega
  | a :: b :: c :: rest => fun h => by
      have ha : a < 256 := h a (by simp)
      have hb : b < 256 := h b (by simp)
      have hc : c < 256 := h c (by simp)
      have ih := base64Decode_base64Encode rest (fun x hx => h x (by simp [hx]))
      show base64Decode (b64Char (a / 4) :: b64Char (a % 4 * 16 + b / 16) ::
        b64Char (b % 16 * 4 + c / 64) :: b64Char (c % 64) :: base64Encode rest) =
        a :: b :: c :: rest
      rw [base64Decode_cons4 _ _ _ _ _ (b64Char_ne_pad _ (by omega))
        (b64Char_ne_pad _ (by omega))]
      rw [b64Index_b64Char _ (by omega), b64Index_b64Char _ (by omega),
        b64Index_b64Char _ (by omega), b64Index_b64Char _ (by omega), ih]
      simp only [List.cons.injEq, and_true]
      omega

/-! ### Helper lemmas: ordered dicts -/

theorem lookup_dictSet {α : Type} (d : List (String × α)) (k key : String) (v : α) :
    List.lookup k (dictSet d key v) =
      if k = key then some v else List.lookup k d := by
  induction d with
  | nil =>
    by_cases hk : k = key
    · simp [dictSet, List.lookup_cons, hk]
    · simp [dictSet, List.lookup_cons, hk, beq_false_of_ne hk]
  | cons p t ih =>
    obtain ⟨a, b⟩ := p
    by_cases hak : a = key
    · subst hak
      simp only [dictSet, beq_self_eq_true, if_true]
      by_cases hk : k = a
      · simp [List.lookup_cons, hk]
      · simp [List.lookup_cons, hk, beq_false_of_ne hk]
    · simp only [dictSet, beq_false_of_ne hak, Bool.false_eq_true, if_false]
      by_cases hk : k = a
      · subst hk
        simp [List.lookup_cons, hak]
      · simp only [List.lookup_cons, beq_false_of_ne hk, ih]

theorem lookup_eq_none_of_not_mem {α : Type} (d : List (String × α)) (k : String)
    (h : k ∉ d.map Prod.fst) : List.lookup k d = none := by
  induction d with
  | nil => rfl
  | cons p t ih =>
    obtain ⟨a, b⟩ := p
    simp only [List.map_cons, List.mem_cons, not_or] at h
    simp only [List.lookup_cons, beq_false_of_ne h.1]
    exact ih h.2

theorem lookup_dictMerge {α : Type} (d1 d2 : List (String × α)) (k : String)
    (hnd : (d2.map Prod.fst).Nodup) :
    List.lookup k (dictMerge d1 d2) =
      (List.lookup k d2).elim (List.lookup k d1) some := by
  induction d2 generalizing d1 with
  | nil => simp [dictMerge]
  | cons p t ih =>
    obtain ⟨a, b⟩ := p
    simp only [List.map_cons, List.nodup_cons] at hnd
    show List.lookup k (dictMerge (dictSet d1 a b) t) = _
    rw [ih _ hnd.2]
    by_cases hk : k = a
    · subst hk
      rw [lookup_eq_none_of_not_mem t k hnd.1]
      simp [List.lookup_cons, lookup_dictSet]
    · simp only [List.lookup_cons, beq_false_of_ne hk, lookup_dictSet, if_neg hk]

/-! ### Helper lemmas: header assembly -/

/-- Closed-form behaviour of `get_headers`, by cases on the credential
lookups and the proxy-authorization flag. -/
theorem get_headers_eq (creds : Credentials) (cfg : Config) :
    get_headers creds cfg =
      match List.lookup "proxy_username" creds, List.lookup "proxy_password" creds with
      | some pu, some pp =>
          .ok (if cfg.plotly_proxy_authorization then
                 [("content-type", PyVal.str "application/json"),
                  ("authorization", PyVal.bytes (basic_auth pu pp))]
               else [("content-type", PyVal.str "application/json")])
      | none, _ => .error (.keyError "proxy_username")
      | some _, none => .error (.keyError "proxy_password") := by
  cases hu : List.lookup "proxy_username" creds with
  | none => simp [get_headers, dictGetItem, hu]
  | some pu =>
    cases hp : List.lookup "proxy_password" creds with
    | none => simp [get_headers, dictGetItem, hu, hp]
    | some pp =>
      cases hflag : cfg.plotly_proxy_authorization <;>
        simp [get_headers, dictGetItem, hu, hp, hflag, dictSet]

theorem get_headers_ok_nodup (creds : Credentials) (cfg : Config)
    (hs : List (String × PyVal)) (hh : get_headers creds cfg = .ok hs) :
    (hs.map Prod.fst).Nodup := by
  rw [get_headers_eq] at hh
  split at hh
  · split at hh <;>
      · injection hh with h
        subst h
        first
        | exact (by decide : (["content-type", "authorization"] : List String).Nodup)
        | exact (by decide : (["content-type"] : List String).Nodup)
  · exact absurd hh (by simp)
  · exact absurd hh (by simp)

/-! ### Claim C1 -/

/-- C1: for every completed response with `ok` false whose body parses to a
mapping containing an `error` key with a truthy value, `validate_response`
raises a `PlotlyRequestError` whose message is exactly that value, whose
status_code is the response's status_code, and whose content is the raw
(unparsed) body. -/
theorem validate_response_truthy_error (r : Response) (fields : List (String × JValue))
    (e : JValue) (hok : r.ok = false) (hjson : r.json = some (.obj fields))
    (herr : List.lookup "error" fields = some e) (htruthy : truthy e = true) :
    validate_response r = .error ⟨.json e, some r.status_code, .bytes r.content⟩ := by
  simp [validate_response, hok, hjson, herr, htruthy]

/-- C1 witness: the spec's end-to-end example, a 404 response with body
`{"error":"not found"}`. -/
theorem validate_response_truthy_error_witness :
    truthy (JValue.str "not found") = true ∧
    validate_response ⟨false, 404, strBytes "\x7b\"error\":\"not found\"\x7d",
        some (.obj [("error", .str "not found")])⟩ =
      .error ⟨.json (.str "not found"), some 404,
        .bytes (strBytes "\x7b\"error\":\"not found\"\x7d")⟩ :=
  ⟨rfl, validate_response_truthy_error _ _ _ rfl rfl rfl rfl⟩

/-! ### Claim C4 -/

/-- C4: for every completed response with `ok` false whose body fails to
parse, or parses to anything without a truthy `error` entry,
`validate_response` raises a `PlotlyRequestError` whose message is the raw
body, or the literal string `No Content` when the body is empty, and whose
content field is the raw body. -/
theorem validate_response_fallback_message (r : Response)
    (hok : r.ok = false) (hne : hasTruthyError r.json = false) :
    validate_response r =
      .error ⟨if r.content.isEmpty then PyVal.str "No Content" else PyVal.bytes r.content,
        some r.status_code, .bytes r.content⟩ := by
  cases hjson : r.json with
  | none => simp [validate_response, hok, hjson]
  | some j =>
    rw [hjson] at hne
    cases j with
    | obj fields =>
      cases herr : List.lookup "error" fields with
      | none => simp [validate_response, hok, hjson, herr]
      | some e =>
        have ht : truthy e = false := by simpa [hasTruthyError, herr] using hne
        simp [validate_response, hok, hjson, herr, ht]
    | null => simp [validate_response, hok, hjson]
    | bool b => simp [validate_response, hok, hjson]
    | num n => simp [validate_response, hok, hjson]
    | str s => simp [validate_response, hok, hjson]
    | arr elems => simp [validate_response, hok, hjson]

/-- C4 witness: a 500 response whose body parses to the JSON string
`"oops"` (no `error` mapping), with non-empty raw content. -/
theorem validate_response_fallback_message_witness :
    hasTruthyError (some (JValue.str "oops")) = false ∧
    validate_response ⟨false, 500, strBytes "oops", some (.str "oops")⟩ =
      .error ⟨.bytes (strBytes "oops"), some 500, .bytes (strBytes "oops")⟩ :=
  ⟨rfl, validate_response_fallback_message _ rfl rfl⟩

/-! ### Claim C6 -/

/-- C6: for every credentials/config state (with the proxy credentials
present, as the data model requires), the assembled headers map
`content-type` to `application/json` and contain the `authorization` key iff
`plotly_proxy_authorization` is set, in which case its value is the
basic-auth encoding of the configured proxy credentials. -/
theorem get_headers_contract (creds : Credentials) (cfg : Config) (pu pp : String)
    (hu : List.lookup "proxy_username" creds = some pu)
    (hp : List.lookup "proxy_password" creds = some pp) :
    ∃ hs, get_headers creds cfg = .ok hs ∧
      List.lookup "content-type" hs = some (PyVal.str "application/json") ∧
      ((List.lookup "authorization" hs).isSome ↔ cfg.plotly_proxy_authorization = true) ∧
      (cfg.plotly_proxy_authorization = true →
        List.lookup "authorization" hs = some (PyVal.bytes (basic_auth pu pp))) := by
  rw [get_headers_eq, hu, hp]
  cases hflag : cfg.plotly_proxy_authorization
  · exact ⟨_, rfl, rfl, Iff.rfl, by simp⟩
  · exact ⟨_, rfl, rfl, Iff.rfl, fun _ => rfl⟩

/-- C6 witness: concrete credentials with the flag set. -/
theorem get_headers_contract_witness :
    List.lookup "proxy_username" [("proxy_username", "u"), ("proxy_password", "p")] =
      some "u" ∧
    List.lookup "proxy_password" [("proxy_username", "u"), ("proxy_password", "p")] =
      some "p" ∧
    ∃ hs, get_headers [("proxy_username", "u"), ("proxy_password", "p")] ⟨true⟩ = .ok hs ∧
      List.lookup "content-type" hs = some (PyVal.str "application/json") ∧
      ((List.lookup "authorization" hs).isSome ↔
        Config.plotly_proxy_authorization ⟨true⟩ = true) ∧
      (Config.plotly_proxy_authorization ⟨true⟩ = true →
        List.lookup "authorization" hs = some (PyVal.bytes (basic_auth "u" "p"))) :=
  ⟨rfl, rfl, get_headers_contract _ _ "u" "p" rfl rfl⟩

/-! ### Claim C7 -/

/-- C7 counterexample: with the proxy-authorization flag false, `get_headers`
returns a mapping containing only `content-type` — the proxy basic-auth value
is not injected under any vendor-specific header name (in particular not
under `plotly-authorization`). -/
theorem get_headers_no_vendor_header_counterexample :
    get_headers [("proxy_username", "u"), ("proxy_password", "p")] ⟨false⟩ =
      .ok [("content-type", PyVal.str "application/json")] ∧
    List.lookup "plotly-authorization"
      [("content-type", PyVal.str "application/json")] = none :=
  ⟨rfl, rfl⟩

/-- C7 amended: for every credentials/config state with the flag false, the
Header Assembler adds no authorization header at all — neither the standard
`authorization` key nor a vendor-specific one; the mapping is exactly
`{content-type: application/json}`. -/
theorem get_headers_flag_false_no_auth (creds : Credentials) (cfg : Config)
    (pu pp : String)
    (hu : List.lookup "proxy_username" creds = some pu)
    (hp : List.lookup "proxy_password" creds = some pp)
    (hflag : cfg.plotly_proxy_authorization = false) :
    get_headers creds cfg = .ok [("content-type", PyVal.str "application/json")] := by
  rw [get_headers_eq, hu, hp, hflag]
  simp

/-- C7 amended witness. -/
theorem get_headers_flag_false_no_auth_witness :
    Config.plotly_proxy_authorization ⟨false⟩ = false ∧
    get_headers [("proxy_username", "u"), ("proxy_password", "p")] ⟨false⟩ =
      .ok [("content-type", PyVal.str "application/json")] :=
  ⟨rfl, get_headers_flag_false_no_auth _ _ "u" "p" rfl rfl rfl⟩

/-! ### Claim C10 -/

/-- C10: the assembled header mapping's key set is exactly
`{content-type}` or `{content-type, authorization}` — never a
vendor-specific key such as `plotly-authorization` — and the proxy
credentials are fetched (dict-indexed) even when the flag is false: the
assembly succeeds exactly when both proxy credential keys are present. -/
theorem get_headers_key_set (creds : Credentials) (cfg : Config) :
    (∀ hs, get_headers creds cfg = .ok hs →
      (hs.map Prod.fst = ["content-type"] ∨
        hs.map Prod.fst = ["content-type", "authorization"]) ∧
      List.lookup "plotly-authorization" hs = none) ∧
    (get_headers creds cfg).isOk =
      ((List.lookup "proxy_username" creds).isSome &&
        (List.lookup "proxy_password" creds).isSome) := by
  constructor
  · intro hs hh
    rw [get_headers_eq] at hh
    split at hh
    · split at hh <;>
        · injection hh with h
          subst h
          exact ⟨by first | exact .inr rfl | exact .inl rfl, rfl⟩
    · exact absurd hh (by simp)
    · exact absurd hh (by simp)
  · rw [get_headers_eq]
    cases hu : List.lookup "proxy_username" creds <;>
      cases hp : List.lookup "proxy_password" creds <;>
        simp [Except.isOk, Except.toBool]

/-- C10 witness: flag false, both credential keys present. -/
theorem get_headers_key_set_witness :
    ([("content-type", PyVal.str "application/json")].map
        (Prod.fst (α := String) (β := PyVal)) = ["content-type"] ∨
      [("content-type", PyVal.str "application/json")].map Prod.fst =
        ["content-type", "authorization"]) ∧
    List.lookup "plotly-authorization"
      [("content-type", PyVal.str "application/json")] = none :=
  (get_headers_key_set [("proxy_username", "u"), ("proxy_password", "p")] ⟨false⟩).1
    [("content-type", PyVal.str "application/json")] rfl

/-! ### Claim C5 -/

/-- C5: for every completed response with `ok` true, `validate_response`
returns without raising regardless of the body, and `request` (called with
any json-free options) returns the transport's response object unchanged. -/
theorem ok_response_validates_and_returns (r : Response) (creds : Credentials)
    (cfg : Config) (transport : Transport) (method url : String)
    (headers other : List (String × PyVal))
    (hs : List (String × PyVal)) (hok : r.ok = true)
    (hh : get_headers creds cfg = .ok hs)
    (ht : transport method url ⟨none, dictMerge headers hs, other⟩ = .success r) :
    validate_response r = .ok () ∧
    (request creds cfg transport method url ⟨none, headers, other⟩).result = .ok r := by
  have hv : validate_response r = .ok () := by simp [validate_response, hok]
  refine ⟨hv, ?_⟩
  simp [request, hh, ht, hv]

/-- C5 witness: a 200 response with (unparseable) body `ignored`. -/
theorem ok_response_validates_and_returns_witness :
    (⟨true, 200, strBytes "ignored", none⟩ : Response).ok = true ∧
    validate_response ⟨true, 200, strBytes "ignored", none⟩ = .ok () ∧
    (request [("proxy_username", "u"), ("proxy_password", "p")] ⟨false⟩
        (fun _ _ _ => .success ⟨true, 200, strBytes "ignored", none⟩)
        "get" "http://example" ⟨none, [], []⟩).result =
      .ok ⟨true, 200, strBytes "ignored", none⟩ :=
  ⟨rfl,
    ok_response_validates_and_returns ⟨true, 200, strBytes "ignored", none⟩
      [("proxy_username", "u"), ("proxy_password", "p")] ⟨false⟩
      (fun _ _ _ => .success ⟨true, 200, strBytes "ignored", none⟩)
      "get" "http://example" [] []
      [("content-type", PyVal.str "application/json")] rfl rfl rfl⟩

/-! ### Claim C8 -/

/-- C8: the headers passed to the transport are the caller's headers updated
with the assembled headers — the assembled value wins on overlapping keys,
caller-only keys are preserved — and every other entry of the options
mapping is forwarded to the transport unmodified. -/
theorem request_forwards_merged_headers (creds : Credentials) (cfg : Config)
    (transport : Transport) (method url : String)
    (headers other : List (String × PyVal))
    (hs : List (String × PyVal)) (hh : get_headers creds cfg = .ok hs) :
    (request creds cfg transport method url ⟨none, headers, other⟩).calls =
      [(method, url, ⟨none, dictMerge headers hs, other⟩)] ∧
    ∀ k, List.lookup k (dictMerge headers hs) =
      (List.lookup k hs).elim (List.lookup k headers) some := by
  constructor
  · simp only [request, Option.isSome_none, Bool.false_eq_true, if_false, hh]
    cases transport method url ⟨none, dictMerge headers hs, other⟩ with
    | failure e => rfl
    | success r => cases hv : validate_response r <;> simp [hv]
  · intro k
    exact lookup_dictMerge headers hs k (get_headers_ok_nodup creds cfg hs hh)

/-- C8 witness: a caller-supplied `content-type` header is overwritten by the
assembled one, while the caller's `x-custom` entry and the non-header options
survive unchanged. -/
theorem request_forwards_merged_headers_witness :
    (request [("proxy_username", "u"), ("proxy_password", "p")] ⟨false⟩
        (fun _ _ _ => .success ⟨true, 200, [], none⟩) "get" "http://example"
        ⟨none, [("content-type", PyVal.str "text/html"), ("x-custom", PyVal.str "1")],
          [("timeout", PyVal.str "5")]⟩).calls =
      [("get", "http://example",
        ⟨none,
          dictMerge [("content-type", PyVal.str "text/html"), ("x-custom", PyVal.str "1")]
            [("content-type", PyVal.str "application/json")],
          [("timeout", PyVal.str "5")]⟩)] ∧
    List.lookup "content-type"
      (dictMerge [("content-type", PyVal.str "text/html"), ("x-custom", PyVal.str "1")]
        [("content-type", PyVal.str "application/json")]) =
      some (PyVal.str "application/json") ∧
    List.lookup "x-custom"
      (dictMerge [("content-type", PyVal.str "text/html"), ("x-custom", PyVal.str "1")]
        [("content-type", PyVal.str "application/json")]) =
      some (PyVal.str "1") :=
  ⟨(request_forwards_merged_headers [("proxy_username", "u"), ("proxy_password", "p")]
      ⟨false⟩ (fun _ _ _ => .success ⟨true, 200, [], none⟩) "get" "http://example"
      [("content-type", PyVal.str "text/html"), ("x-custom", PyVal.str "1")]
      [("timeout", PyVal.str "5")]
      [("content-type", PyVal.str "application/json")] rfl).1,
    (request_forwards_merged_headers [("proxy_username", "u"), ("proxy_password", "p")]
      ⟨false⟩ (fun _ _ _ => .success ⟨true, 200, [], none⟩) "get" "http://example"
      [("content-type", PyVal.str "text/html"), ("x-custom", PyVal.str "1")]
      [("timeout", PyVal.str "5")]
      [("content-type", PyVal.str "application/json")] rfl).2 "content-type",
    (request_forwards_merged_headers [("proxy_username", "u"), ("proxy_password", "p")]
      ⟨false⟩ (fun _ _ _ => .success ⟨true, 200, [], none⟩) "get" "http://example"
      [("content-type", PyVal.str "text/html"), ("x-custom", PyVal.str "1")]
      [("timeout", PyVal.str "5")]
      [("content-type", PyVal.str "application/json")] rfl).2 "x-custom"⟩

/-! ### Claim C9 -/

/-- C9: `basic_auth` returns the byte string `Basic ` followed by the base64
encoding of the UTF-8 bytes of `<username>:<password>`; `base64Encode` really
is a base64 encoding (decoding recovers the input), and the spec's concrete
example is byte-exact. -/
theorem basic_auth_spec (username password : String) :
    basic_auth username password =
      strBytes "Basic " ++ base64Encode (strBytes (username ++ ":" ++ password)) ∧
    base64Decode (base64Encode (strBytes (username ++ ":" ++ password))) =
      strBytes (username ++ ":" ++ password) ∧
    basic_auth "alice" "secret" = strBytes "Basic YWxpY2U6c2VjcmV0" :=
  ⟨rfl, base64Decode_base64Encode _ (strBytes_lt _), by decide⟩

/-! ### Claim C3 -/

/-- When the `json` entry is `None`, `request` never raises the usage error
(`PlotlyError`): every other outcome is an `Except.ok`, a `KeyError` from
header assembly, or a `PlotlyRequestError`. -/
theorem request_result_no_usage_error (creds : Credentials) (cfg : Config)
    (transport : Transport) (method url : String) (kwargs : Kwargs)
    (hj : kwargs.json = none) (msg : String) :
    (request creds cfg transport method url kwargs).result ≠
      .error (.plotlyError msg) := by
  simp only [request, hj, Option.isSome_none, Bool.false_eq_true, if_false]
  cases hh : get_headers creds cfg with
  | error e =>
    have hk : ∃ k, e = PyErr.keyError k := by
      rw [get_headers_eq] at hh
      split at hh
      · split at hh <;> exact absurd hh (by simp)
      · exact ⟨"proxy_username", by injection hh with h; exact h.symm⟩
      · exact ⟨"proxy_password", by injection hh with h; exact h.symm⟩
    obtain ⟨k, rfl⟩ := hk
    simp
  | ok hs =>
    cases htr : transport method url ⟨none, dictMerge kwargs.headers hs, kwargs.other⟩ with
    | failure e => simp [htr]
    | success r => cases hv : validate_response r <;> simp [htr, hv]

/-- C3 counterexample: the claim's "populated (non-empty) JSON body" is wrong —
an invocation whose `json` entry is the EMPTY mapping `{}` (falsy in Python,
hence not populated) is still rejected with the usage error. -/
theorem request_rejects_unpopulated_json_counterexample :
    truthy (JValue.obj []) = false ∧
    (request [("proxy_username", "u"), ("proxy_password", "p")] ⟨false⟩
        (fun _ _ _ => .success ⟨true, 200, [], none⟩) "get" "http://example"
        ⟨some (JValue.obj []), [], []⟩).result =
      .error (.plotlyError "V1 API does not handle arbitrary json.") :=
  ⟨rfl, rfl⟩

/-- C3 amended: `request` raises the usage error (`PlotlyError`, distinct from
`PlotlyRequestError`) iff the options carry any non-`None` `json` entry —
populated or not — and it does so before any transport call; invocations with
`json` absent or `None` proceed to the transport (assuming header assembly
succeeds). -/
theorem request_usage_error_iff (creds : Credentials) (cfg : Config)
    (transport : Transport) (method url : String) (kwargs : Kwargs) :
    ((request creds cfg transport method url kwargs).result =
        .error (.plotlyError "V1 API does not handle arbitrary json.") ↔
      kwargs.json.isSome = true) ∧
    (kwargs.json.isSome = true →
      (request creds cfg transport method url kwargs).calls = []) ∧
    (kwargs.json = none → (get_headers creds cfg).isOk = true →
      (request creds cfg transport method url kwargs).calls.length = 1) := by
  refine ⟨⟨fun hres => ?_, fun hsome => ?_⟩, fun hsome => ?_, fun hjn hok => ?_⟩
  · by_contra hns
    have hnone : kwargs.json = none := by
      cases hj : kwargs.json with
      | none => rfl
      | some j => exact absurd (by simp [hj]) hns
    exact request_result_no_usage_error creds cfg transport method url kwargs hnone _ hres
  · simp [request, hsome]
  · simp [request, hsome]
  · simp only [request, hjn, Option.isSome_none, Bool.false_eq_true, if_false]
    cases hh : get_headers creds cfg with
    | error e => simp [hh, Except.isOk, Except.toBool] at hok
    | ok hs =>
      cases htr : transport method url ⟨none, dictMerge kwargs.headers hs, kwargs.other⟩ with
      | failure e => simp [htr]
      | success r => cases hv : validate_response r <;> simp [htr, hv]

/-- C3 amended witness: a non-`None` (empty) json body is rejected with no
transport call recorded. -/
theorem request_usage_error_iff_witness :
    (Kwargs.json ⟨some (JValue.obj []), [], []⟩).isSome = true ∧
    (request [("proxy_username", "u"), ("proxy_password", "p")] ⟨false⟩
        (fun _ _ _ => .success ⟨true, 200, [], none⟩) "get" "http://example"
        ⟨some (JValue.obj []), [], []⟩).calls = [] :=
  ⟨rfl,
    (request_usage_error_iff [("proxy_username", "u"), ("proxy_password", "p")] ⟨false⟩
      (fun _ _ _ => .success ⟨true, 200, [], none⟩) "get" "http://example"
      ⟨some (JValue.obj []), [], []⟩).2.1 rfl⟩

/-! ### Claim C2 -/

/-- C2 (documents the code bug): a transport exception carrying an attached
partial response with `ok` false (status 500, body `oops`) is translated into
a `PlotlyRequestError` with `status_code = None` and `content = "No content"`,
AS IF no response were attached: `response.status_code if response else None`
tests the truthiness of a `requests.Response`, which is `response.ok`, not
its presence.  The claim (derive the fields from the partial response whenever
one is present) describes the evident intent, not this behaviour. -/
theorem request_transport_exception_truthiness :
    (⟨false, 500, strBytes "oops", none⟩ : Response).ok = false ∧
    (request [("proxy_username", "u"), ("proxy_password", "p")] ⟨false⟩
        (fun _ _ _ => .failure
          ⟨some (.str "boom"), some ⟨false, 500, strBytes "oops", none⟩⟩)
        "get" "http://example" ⟨none, [], []⟩).result =
      .error (.plotlyRequestError ⟨.str "boom", none, .str "No content"⟩) :=
  ⟨rfl, rfl⟩

end PlotlyV1
